import Mathlib

/-!
Shallow embedding of the KRP WhatsApp server (src/server.js and
src/unnamed/part_000). The two files contain the same active handler code;
the embedding follows the active (uncommented) code, which is identical in
both files for every route modelled here.

The external collaborators (the whatsapp-web.js client and the Google Apps
Script relay endpoint) are modelled as oracles: the outcome of each
`client.sendMessage` / `client.logout` call and the result of the relay
`fetch` are inputs to the embedded handler functions.
-/

/-- Process-wide mutable connection state: `let qrCodeData = ''` and
`let isReady = false` in the source.  `qrCodeData` is a JS string whose
truthiness (non-emptiness) the handlers test. -/
structure ConnState where
  isReady : Bool
  qrCodeData : String
deriving DecidableEq, Repr

/-- Outcome of an awaited command on the session client (`client.sendMessage`,
`client.logout`): either it resolves, or it rejects with an error whose
`.message` is the given string. -/
inductive SendOutcome where
  | ok
  | err (msg : String)
deriving DecidableEq, Repr

/-- JS truthiness of an optional string body field: `undefined` and `""` are
falsy, every other string is truthy (mirrors `!phone`, `!message`). -/
def optTruthy : Option String → Bool
  | none => false
  | some s => s != ""

/-- Mirrors `charsMatch pat s`: the char list `pat` is an initial segment of
`s`; used to model `String.prototype.startsWith` and first-occurrence
replacement. -/
def charsMatch : List Char → List Char → Bool
  | [], _ => true
  | _ :: _, [] => false
  | p :: ps, c :: cs => p == c && charsMatch ps cs

/-- JS `s.startsWith(pat)`. -/
def jsStartsWith (s pat : String) : Bool :=
  charsMatch pat.toList s.toList

/-- JS `phone.replace(/[^0-9]/g, '')`: keep only the ASCII digits 0-9. -/
def digitsOnly (s : String) : String :=
  String.mk (s.toList.filter Char.isDigit)

/-- Phone normalization of the POST /send handler (src/server.js lines
211-214): strip non-digits, and if the result is a 10-character string not
starting with "91", prepend "91". -/
def normalizePhone (phone : String) : String :=
  let phoneNumber := digitsOnly phone
  if !(jsStartsWith phoneNumber "91") && phoneNumber.length == 10 then
    "91" ++ phoneNumber
  else
    phoneNumber

/-- Phone normalization as it appears, textually repeated, inside the
POST /send-bulk loop (src/server.js lines 256-259). -/
def normalizePhoneBulk (phone : String) : String :=
  let phoneNumber := digitsOnly phone
  if !(jsStartsWith phoneNumber "91") && phoneNumber.length == 10 then
    "91" ++ phoneNumber
  else
    phoneNumber

/-- The normalization rule in the words of the specification: strip all
non-digit characters; if the resulting digit string has exactly 10 digits and
does not start with "91", prepend "91"; every other digit string passes
through unmodified. -/
def claimNormalizePhone (phone : String) : String :=
  let d := digitsOnly phone
  if d.length == 10 && !(jsStartsWith d "91") then "91" ++ d else d

/-- Claim C1: phone normalization, applied identically in /send and
/send-bulk, strips non-digits and prepends "91" exactly to 10-digit strings
not already starting with "91"; every other digit string passes through
unmodified.  Concretely "9876543210" maps to "919876543210", "919876543210"
is unchanged, and "+91-98765-43210" maps to "919876543210". -/
theorem normalize_phone_spec :
    (∀ p, normalizePhone p = normalizePhoneBulk p) ∧
    (∀ p, normalizePhone p = claimNormalizePhone p) ∧
    normalizePhone "9876543210" = "919876543210" ∧
    normalizePhone "919876543210" = "919876543210" ∧
    normalizePhone "+91-98765-43210" = "919876543210" := by
  refine ⟨fun p => rfl, fun p => ?_, by decide, by decide, by decide⟩
  unfold normalizePhone claimNormalizePhone
  cases h1 : jsStartsWith (digitsOnly p) "91" <;>
    cases h2 : ((digitsOnly p).length == 10) <;>
      simp [h1, h2]

/-- Response of GET /qr (src/unnamed/part_000 lines 178-198). -/
structure QrResponse where
  connected : Bool
  qrCode : Option String
  message : String
deriving DecidableEq, Repr

/-- GET /qr handler: ready wins; otherwise a non-empty `qrCodeData` is
returned; otherwise both are absent.  It always returns 200 JSON (modelled
by totality of this function). -/
def qrHandler (st : ConnState) : QrResponse :=
  if st.isReady then
    { connected := true, qrCode := none, message := "WhatsApp is already connected" }
  else if st.qrCodeData != "" then
    { connected := false, qrCode := some st.qrCodeData, message := "Scan this QR code to connect" }
  else
    { connected := false, qrCode := none, message := "Generating QR code... Please wait." }

/-- Effect of the `client.on('ready')` callback (lines 68-73): sets
`isReady = true` and clears `qrCodeData`. -/
def onReadyEvent (_st : ConnState) : ConnState :=
  { isReady := true, qrCodeData := "" }

/-- Effect of the `client.on('disconnected')` callback (lines 94-98): sets
`isReady = false` and clears `qrCodeData`; the reason string is only logged. -/
def onDisconnectedEvent (_st : ConnState) (_reason : String) : ConnState :=
  { isReady := false, qrCodeData := "" }

/-- Effect of the `client.on('auth_failure')` callback (lines 81-84): sets
`isReady = false`; `qrCodeData` is left as it was. -/
def onAuthFailureEvent (st : ConnState) (_msg : String) : ConnState :=
  { isReady := false, qrCodeData := st.qrCodeData }

/-- Effect of the `client.on('qr')` callback (lines 56-65): on successful
image generation `qrCodeData` is set to the data URL; if `qrcode.toDataURL`
rejects, the error is logged and the state is left unchanged. -/
def onQrEvent (st : ConnState) (imgResult : Option String) : ConnState :=
  match imgResult with
  | some img => { st with qrCodeData := img }
  | none => st

/-- Response of POST /send (lines 229-268).  `toRecipient` embeds the `to:`
field of the JSON body. -/
structure SendResponse where
  status : Nat
  success : Bool
  message : Option String
  toRecipient : Option String
  error : Option String
deriving DecidableEq, Repr

/-- POST /send handler.  `outcome chatId msg` is the oracle for
`await client.sendMessage(chatId, message)`.  Besides the HTTP response it
returns the list of send commands issued to the session client (each a
`(chatId, message)` pair), in order. -/
def sendHandler (st : ConnState) (phone message : Option String)
    (outcome : String → String → SendOutcome) :
    SendResponse × List (String × String) :=
  if !st.isReady then
    ({ status := 400, success := false, message := none, toRecipient := none,
       error := some "WhatsApp is not connected. Please scan QR code first." }, [])
  else if !optTruthy phone || !optTruthy message then
    ({ status := 400, success := false, message := none, toRecipient := none,
       error := some "Phone and message are required" }, [])
  else
    let p := phone.getD ""
    let m := message.getD ""
    let phoneNumber := normalizePhone p
    let chatId := phoneNumber ++ "@c.us"
    match outcome chatId m with
    | SendOutcome.ok =>
        ({ status := 200, success := true, message := some "Message sent successfully",
           toRecipient := some chatId, error := none }, [(chatId, m)])
    | SendOutcome.err e =>
        ({ status := 500, success := false, message := none, toRecipient := none,
           error := some e }, [(chatId, m)])

/-- One element of the `results` array built by the POST /send-bulk loop. -/
structure BulkItem where
  phone : String
  success : Bool
  error : Option String
deriving DecidableEq, Repr

/-- Observable effect of one step of the /send-bulk loop: a send command
issued to the session client, or an awaited `setTimeout` pause of the given
number of milliseconds. -/
inductive BulkEvent where
  | sendCmd (chatId msg : String)
  | delay (ms : Nat)
deriving DecidableEq, Repr

/-- The `for (const phone of recipients)` loop of POST /send-bulk (lines
290-308).  `outcome i` is the oracle for the `client.sendMessage` call of the
i-th iteration; `i` is the index of the current recipient.  Returns the
`results` array and the ordered trace of effects.  On a successful send the
loop pushes a success result and awaits a 2000 ms timeout; on a rejected send
the catch block pushes a failure result carrying the error text and the loop
continues immediately with the next recipient. -/
def bulkLoop (m : String) (outcome : Nat → SendOutcome) :
    Nat → List String → List BulkItem × List BulkEvent
  | _, [] => ([], [])
  | i, phone :: rest =>
    let chatId := normalizePhoneBulk phone ++ "@c.us"
    let tail := bulkLoop m outcome (i + 1) rest
    match outcome i with
    | SendOutcome.ok =>
        ({ phone := phone, success := true, error := none } :: tail.1,
         BulkEvent.sendCmd chatId m :: BulkEvent.delay 2000 :: tail.2)
    | SendOutcome.err e =>
        ({ phone := phone, success := false, error := some e } :: tail.1,
         BulkEvent.sendCmd chatId m :: tail.2)

/-- Response of POST /send-bulk (lines 271-316). -/
structure BulkResponse where
  status : Nat
  success : Bool
  results : List BulkItem
  sent : Nat
  failed : Nat
  error : Option String
deriving DecidableEq, Repr

/-- POST /send-bulk handler.  `recipients = none` models a missing, falsy or
non-array `recipients` body field (all rejected by
`!recipients || !Array.isArray(recipients)`); a present array — empty or
not — is `some rs`, since a JS array is truthy regardless of length. -/
def sendBulkHandler (st : ConnState) (recipients : Option (List String))
    (message : Option String) (outcome : Nat → SendOutcome) :
    BulkResponse × List BulkEvent :=
  if !st.isReady then
    ({ status := 400, success := false, results := [], sent := 0, failed := 0,
       error := some "WhatsApp is not connected" }, [])
  else if recipients.isNone || !optTruthy message then
    ({ status := 400, success := false, results := [], sent := 0, failed := 0,
       error := some "Recipients array and message are required" }, [])
  else
    let m := message.getD ""
    let rs := recipients.getD []
    let loopOut := bulkLoop m outcome 0 rs
    ({ status := 200, success := true, results := loopOut.1,
       sent := (loopOut.1.filter (fun r => r.success)).length,
       failed := (loopOut.1.filter (fun r => !r.success)).length,
       error := none }, loopOut.2)

/-- Response of POST /logout (lines 319-328). -/
structure LogoutResponse where
  status : Nat
  success : Bool
  message : Option String
  error : Option String
deriving DecidableEq, Repr

/-- POST /logout handler.  There is no readiness check: the handler
immediately awaits `client.logout()` (oracle `logoutResult`).  On success it
clears `isReady` and `qrCodeData` and answers 200; on rejection it answers
500 with the error text and leaves the state untouched. -/
def logoutHandler (st : ConnState) (logoutResult : SendOutcome) :
    ConnState × LogoutResponse :=
  match logoutResult with
  | SendOutcome.ok =>
      ({ isReady := false, qrCodeData := "" },
       { status := 200, success := true, message := some "Logged out successfully",
         error := none })
  | SendOutcome.err e =>
      (st, { status := 500, success := false, message := none, error := some e })

/-- Remove the first occurrence of the pattern `pat` from a char list;
models JS `String.prototype.replace` with a string pattern and an empty
replacement, which replaces only the first occurrence. -/
def removeFirstAux (pat : List Char) : List Char → List Char
  | [] => []
  | c :: cs =>
      if charsMatch pat (c :: cs) then (c :: cs).drop pat.length
      else c :: removeFirstAux pat cs

/-- JS `s.replace(pat, '')` for a plain-string pattern: only the first
occurrence is removed. -/
def removeFirstOcc (s pat : String) : String :=
  String.mk (removeFirstAux pat.toList s.toList)

/-- JSON body POSTed to the relay endpoint by `handleIncomingMessage`
(lines 116-126): `{action: 'processMessage', from: <phone>, message: <text>}`.
The `from` key is embedded as `fromNumber`. -/
structure RelayPayload where
  action : String
  fromNumber : String
  message : String
deriving DecidableEq, Repr

/-- Result of the relay round-trip `await fetch(...)` followed by
`await response.json()`: `failure` covers a network error or a non-JSON
response body (either `await` rejects), `success reply` is a parsed JSON
object whose optional `reply` field is `reply`. -/
inductive RelayResult where
  | failure (err : String)
  | success (reply : Option String)
deriving DecidableEq, Repr

/-- `handleIncomingMessage` (lines 108-139).  The whole body is wrapped in
try/catch whose catch only logs, so the function is total: no exception
escapes to the caller and no retry is made.  It returns the (unchanged)
connection state, the relay payload that was POSTed, and the reply text
passed to `message.reply` — `none` when no reply command was issued.  A
reply is issued exactly when the relay result is parsed JSON with a truthy
(non-empty) `reply` field. -/
def handleIncomingMessage (st : ConnState) (msgFrom msgBody : String)
    (relay : RelayResult) : ConnState × RelayPayload × Option String :=
  let phoneNumber := removeFirstOcc msgFrom "@c.us"
  let text := msgBody.trim
  let payload : RelayPayload :=
    { action := "processMessage", fromNumber := phoneNumber, message := text }
  match relay with
  | RelayResult.failure _ => (st, payload, none)
  | RelayResult.success reply =>
      if optTruthy reply then (st, payload, some (reply.getD ""))
      else (st, payload, none)

/-- The pacing property claimed of the /send-bulk trace: every send command
that is not the final event of the trace is immediately followed by a
2000 ms pause before anything else happens — in particular there is a
2-second pause between any two consecutive send attempts. -/
def pausedBetweenSends : List BulkEvent → Bool
  | [] => true
  | [_] => true
  | BulkEvent.sendCmd _ _ :: e :: rest =>
      (match e with
       | BulkEvent.delay ms => ms == 2000
       | _ => false) && pausedBetweenSends (e :: rest)
  | _ :: rest => pausedBetweenSends rest

/-- Results array built by the /send-bulk loop, characterized: one entry per
recipient, in the recipients' order, marked by the outcome of the
corresponding send attempt, failures carrying the error text. -/
theorem bulkLoop_results (m : String) (o : Nat → SendOutcome) :
    ∀ (i : Nat) (rs : List String),
      (bulkLoop m o i rs).1 = (rs.enumFrom i).map (fun p =>
        match o p.1 with
        | SendOutcome.ok => { phone := p.2, success := true, error := none }
        | SendOutcome.err e => { phone := p.2, success := false, error := some e }) := by
  intro i rs
  induction rs generalizing i with
  | nil => rfl
  | cons hd tl ih =>
    cases h : o i <;> simp [bulkLoop, List.enumFrom_cons, h, ih]

/-- A list of bulk items splits into its successful and its failed entries. -/
theorem length_filter_success_add (l : List BulkItem) :
    (l.filter fun r => r.success).length + (l.filter fun r => !r.success).length
      = l.length := by
  induction l with
  | nil => rfl
  | cons hd tl ih =>
    cases h : hd.success <;> simp [List.filter_cons, h] <;> omega

/-- Claim C2: a /send-bulk request with ready=true and a valid body attempts
a send for every recipient in order; the results list mirrors the recipients
list (order preserved, one entry each, marked by the attempt's outcome,
failures carrying the error text), a failing recipient does not stop the
loop, and sent + failed equals the number of recipients. -/
theorem send_bulk_processes_every_recipient (q m : String) (rs : List String)
    (o : Nat → SendOutcome) (hm : m ≠ "") :
    (sendBulkHandler { isReady := true, qrCodeData := q } (some rs) (some m) o).1.status = 200 ∧
    (sendBulkHandler { isReady := true, qrCodeData := q } (some rs) (some m) o).1.results =
      rs.enum.map (fun p =>
        match o p.1 with
        | SendOutcome.ok => { phone := p.2, success := true, error := none }
        | SendOutcome.err e => { phone := p.2, success := false, error := some e }) ∧
    ((sendBulkHandler { isReady := true, qrCodeData := q } (some rs) (some m) o).1.results.map
        (fun r => r.phone)) = rs ∧
    (∀ r ∈ (sendBulkHandler { isReady := true, qrCodeData := q } (some rs) (some m) o).1.results,
        r.success = false → r.error ≠ none) ∧
    (sendBulkHandler { isReady := true, qrCodeData := q } (some rs) (some m) o).1.sent +
      (sendBulkHandler { isReady := true, qrCodeData := q } (some rs) (some m) o).1.failed
        = rs.length := by
  have hmb : (m == "") = false := by simp [hm]
  have hstep : sendBulkHandler { isReady := true, qrCodeData := q } (some rs) (some m) o =
      ({ status := 200, success := true, results := (bulkLoop m o 0 rs).1,
         sent := ((bulkLoop m o 0 rs).1.filter (fun r => r.success)).length,
         failed := ((bulkLoop m o 0 rs).1.filter (fun r => !r.success)).length,
         error := none }, (bulkLoop m o 0 rs).2) := by
    simp [sendBulkHandler, optTruthy, bne, hmb]
  have hchar := bulkLoop_results m o 0 rs
  have hphone : ((rs.enumFrom 0).map (fun p =>
      match o p.1 with
      | SendOutcome.ok =>
          ({ phone := p.2, success := true, error := none } : BulkItem)
      | SendOutcome.err e =>
          { phone := p.2, success := false, error := some e })).map (fun r => r.phone)
      = rs := by
    rw [List.map_map]
    have : ((fun r : BulkItem => r.phone) ∘ (fun p : Nat × String =>
        match o p.1 with
        | SendOutcome.ok =>
            ({ phone := p.2, success := true, error := none } : BulkItem)
        | SendOutcome.err e =>
            { phone := p.2, success := false, error := some e })) = Prod.snd := by
      funext p
      simp only [Function.comp_apply]
      cases o p.1 <;> rfl
    rw [this]
    exact List.enum_map_snd rs
  refine ⟨by rw [hstep], ?_, ?_, ?_, ?_⟩
  · rw [hstep]
    simpa [List.enum] using hchar
  · rw [hstep]
    simpa [List.enum, hchar] using hphone
  · rw [hstep]
    intro r hr
    simp only [hchar, List.mem_map] at hr
    obtain ⟨p, _, rfl⟩ := hr
    cases h : o p.1 <;> simp [h]
  · rw [hstep]
    have hlen : (bulkLoop m o 0 rs).1.length = rs.length := by
      rw [hchar, List.length_map, List.enumFrom_length]
    calc ((bulkLoop m o 0 rs).1.filter (fun r => r.success)).length +
          ((bulkLoop m o 0 rs).1.filter (fun r => !r.success)).length
        = (bulkLoop m o 0 rs).1.length := length_filter_success_add _
      _ = rs.length := hlen

/-- Witness for C2: recipients A, B, C where the second send attempt fails;
the response preserves order, marks B as the only failure carrying the error
text, and sent + failed = 3. -/
theorem send_bulk_processes_every_recipient_witness :
    ("hello" : String) ≠ "" ∧
    (sendBulkHandler { isReady := true, qrCodeData := "" }
        (some ["9876543210", "8876543210", "7876543210"]) (some "hello")
        (fun i => if i == 1 then SendOutcome.err "boom" else SendOutcome.ok)).1.status
      = 200 ∧
    (sendBulkHandler { isReady := true, qrCodeData := "" }
        (some ["9876543210", "8876543210", "7876543210"]) (some "hello")
        (fun i => if i == 1 then SendOutcome.err "boom" else SendOutcome.ok)).1.sent +
      (sendBulkHandler { isReady := true, qrCodeData := "" }
          (some ["9876543210", "8876543210", "7876543210"]) (some "hello")
          (fun i => if i == 1 then SendOutcome.err "boom" else SendOutcome.ok)).1.failed
        = 3 := by
  have h := send_bulk_processes_every_recipient "" "hello"
    ["9876543210", "8876543210", "7876543210"]
    (fun i => if i == 1 then SendOutcome.err "boom" else SendOutcome.ok) (by decide)
  exact ⟨by decide, h.1, h.2.2.2.2⟩

/-- Claim C3: a /send request made while ready=false is answered 400 and no
send command is issued to the session client, regardless of the body. -/
theorem send_requires_ready (st : ConnState) (phone message : Option String)
    (o : String → String → SendOutcome) (h : st.isReady = false) :
    (sendHandler st phone message o).1.status = 400 ∧
    (sendHandler st phone message o).2 = [] := by
  simp [sendHandler, h]

/-- Witness for C3: not-ready state with a well-formed body. -/
theorem send_requires_ready_witness :
    ({ isReady := false, qrCodeData := "" } : ConnState).isReady = false ∧
    ((sendHandler { isReady := false, qrCodeData := "" } (some "9876543210") (some "hi")
        (fun _ _ => SendOutcome.ok)).1.status = 400 ∧
      (sendHandler { isReady := false, qrCodeData := "" } (some "9876543210") (some "hi")
        (fun _ _ => SendOutcome.ok)).2 = []) :=
  ⟨rfl, send_requires_ready _ _ _ _ rfl⟩

/-- Claim C10: on a successful /send, the `to` field of the response is the
chat identifier actually passed to the session client's send command — the
normalized digit string with "@c.us" appended — and not the bare canonical
phone string. -/
theorem send_success_reports_chat_id (st : ConnState) (p m : String)
    (o : String → String → SendOutcome) (hready : st.isReady = true)
    (hp : p ≠ "") (hm : m ≠ "")
    (hok : o (normalizePhone p ++ "@c.us") m = SendOutcome.ok) :
    (sendHandler st (some p) (some m) o).1.status = 200 ∧
    (sendHandler st (some p) (some m) o).1.toRecipient
      = some (normalizePhone p ++ "@c.us") ∧
    (sendHandler st (some p) (some m) o).2 = [(normalizePhone p ++ "@c.us", m)] ∧
    (sendHandler st (some p) (some m) o).1.toRecipient ≠ some (normalizePhone p) := by
  have hpb : (p == "") = false := by simp [hp]
  have hmb : (m == "") = false := by simp [hm]
  have hstep : sendHandler st (some p) (some m) o =
      ({ status := 200, success := true, message := some "Message sent successfully",
         toRecipient := some (normalizePhone p ++ "@c.us"), error := none },
       [(normalizePhone p ++ "@c.us", m)]) := by
    simp [sendHandler, optTruthy, bne, hpb, hmb, hready, hok]
  refine ⟨by rw [hstep], by rw [hstep], by rw [hstep], ?_⟩
  rw [hstep]
  intro hcontra
  have hx : normalizePhone p ++ "@c.us" = normalizePhone p :=
    Option.some.inj hcontra
  have hlen : (normalizePhone p ++ "@c.us").length = (normalizePhone p).length :=
    congrArg String.length hx
  rw [String.length_append] at hlen
  have h5 : ("@c.us" : String).length = 5 := rfl
  rw [h5] at hlen
  omega

/-- Witness for C10: a ready state, a plain 10-digit phone and a send that
resolves. -/
theorem send_success_reports_chat_id_witness :
    (sendHandler { isReady := true, qrCodeData := "" } (some "9876543210") (some "hi")
        (fun _ _ => SendOutcome.ok)).1.status = 200 ∧
    (sendHandler { isReady := true, qrCodeData := "" } (some "9876543210") (some "hi")
        (fun _ _ => SendOutcome.ok)).1.toRecipient = some "919876543210@c.us" := by
  have h := send_success_reports_chat_id { isReady := true, qrCodeData := "" }
    "9876543210" "hi" (fun _ _ => SendOutcome.ok) rfl (by decide) (by decide) rfl
  refine ⟨h.1, ?_⟩
  rw [h.2.1]
  decide

/-- Claim C4: inbound-message handling never changes the connection state and
never lets an exception escape (the handler is a total function); a reply
send-command is issued if and only if the relay call produced well-formed
JSON with a non-empty `reply` field — on any failure or empty reply, nothing
is sent and no retry is made (the relay oracle is consulted exactly once by
construction). -/
theorem incoming_relay_failures_swallowed (st : ConnState) (f b : String)
    (relay : RelayResult) :
    (handleIncomingMessage st f b relay).1 = st ∧
    (∀ r : String, (handleIncomingMessage st f b relay).2.2 = some r ↔
      (relay = RelayResult.success (some r) ∧ r ≠ "")) := by
  constructor
  · cases relay with
    | failure e => rfl
    | success reply =>
        cases reply with
        | none => rfl
        | some s =>
            by_cases hs : s = "" <;> simp [handleIncomingMessage, optTruthy, hs]
  · intro r
    cases relay with
    | failure e => simp [handleIncomingMessage]
    | success reply =>
        cases reply with
        | none => simp [handleIncomingMessage, optTruthy]
        | some s =>
            by_cases hs : s = ""
            · subst hs
              simp [handleIncomingMessage, optTruthy]
              intro hr
              simp [hr]
            · simp [handleIncomingMessage, optTruthy, hs]
              rintro rfl
              exact hs

/-- Witness for C4: a well-formed relay response with reply "pong" on a ready
state: the state is unchanged and exactly that reply is sent. -/
theorem incoming_relay_failures_swallowed_witness :
    (handleIncomingMessage { isReady := true, qrCodeData := "img" }
        "919876543210@c.us" " hi " (RelayResult.success (some "pong"))).1
      = { isReady := true, qrCodeData := "img" } ∧
    ((handleIncomingMessage { isReady := true, qrCodeData := "img" }
        "919876543210@c.us" " hi " (RelayResult.success (some "pong"))).2.2
      = some "pong" ↔
      (RelayResult.success (some "pong") = RelayResult.success (some "pong") ∧
        ("pong" : String) ≠ "")) := by
  have h := incoming_relay_failures_swallowed { isReady := true, qrCodeData := "img" }
    "919876543210@c.us" " hi " (RelayResult.success (some "pong"))
  exact ⟨h.1, h.2 "pong"⟩

/-- Claim C7: /qr returns exactly one of three results, determined by the
connection state with the ready flag taking precedence, and never fails
(the handler is a total function). -/
theorem qr_endpoint_three_states (st : ConnState) :
    (st.isReady = true →
      qrHandler st = { connected := true, qrCode := none,
                       message := "WhatsApp is already connected" }) ∧
    (st.isReady = false → st.qrCodeData ≠ "" →
      qrHandler st = { connected := false, qrCode := some st.qrCodeData,
                       message := "Scan this QR code to connect" }) ∧
    (st.isReady = false → st.qrCodeData = "" →
      qrHandler st = { connected := false, qrCode := none,
                       message := "Generating QR code... Please wait." }) := by
  refine ⟨fun h => by simp [qrHandler, h], fun h hq => ?_,
    fun h hq => by simp [qrHandler, h, hq]⟩
  have hb : (st.qrCodeData != "") = true := by simp [hq]
  simp [qrHandler, h, hb]

/-- Witness for C7: a not-ready state holding a pairing image. -/
theorem qr_endpoint_three_states_witness :
    ({ isReady := false, qrCodeData := "IMG" } : ConnState).isReady = false ∧
    ({ isReady := false, qrCodeData := "IMG" } : ConnState).qrCodeData ≠ "" ∧
    qrHandler { isReady := false, qrCodeData := "IMG" }
      = { connected := false, qrCode := some "IMG",
          message := "Scan this QR code to connect" } :=
  ⟨rfl, by decide, (qr_endpoint_three_states _).2.1 rfl (by decide)⟩

/-- Claim C8: the pairing image is cleared whenever ready becomes true (the
`ready` event) and whenever the session disconnects (the `disconnected`
event): immediately after either event `qrCodeData` is empty, with
`isReady = true` after `ready` and `isReady = false` after `disconnected`. -/
theorem pairing_image_cleared_on_ready_and_disconnect (st : ConnState)
    (reason : String) :
    (onReadyEvent st).isReady = true ∧ (onReadyEvent st).qrCodeData = "" ∧
    (onDisconnectedEvent st reason).isReady = false ∧
    (onDisconnectedEvent st reason).qrCodeData = "" :=
  ⟨rfl, rfl, rfl, rfl⟩

/-- Counterexample to C5: with ready=false and a logout command that
resolves, /logout answers 200, not 400 — the handler has no readiness
check. -/
theorem logout_not_ready_returns_200 :
    (logoutHandler { isReady := false, qrCodeData := "" } SendOutcome.ok).2.status = 200 ∧
    ¬ (logoutHandler { isReady := false, qrCodeData := "" } SendOutcome.ok).2.status = 400 := by
  decide

/-- Claim C5 amended: /logout never returns 400; independent of the ready
flag it answers 200 (clearing the connection state) when the underlying
logout resolves and 500 with the error text (state untouched) when it
rejects. -/
theorem logout_ignores_ready_flag (st : ConnState) (r : SendOutcome) :
    ((logoutHandler st r).2.status = 200 ∨ (logoutHandler st r).2.status = 500) ∧
    (logoutHandler st r).2.status ≠ 400 ∧
    (r = SendOutcome.ok →
      logoutHandler st r = ({ isReady := false, qrCodeData := "" },
        { status := 200, success := true, message := some "Logged out successfully",
          error := none })) ∧
    (∀ e, r = SendOutcome.err e →
      (logoutHandler st r).1 = st ∧ (logoutHandler st r).2.status = 500 ∧
      (logoutHandler st r).2.error = some e) := by
  cases r <;> simp [logoutHandler]

/-- Witness for the amended C5, at a not-ready state: a resolving logout
answers 200 and clears the state, a rejecting logout answers 500 carrying
the error text with the state untouched. -/
theorem logout_ignores_ready_flag_witness :
    ((logoutHandler { isReady := false, qrCodeData := "" } SendOutcome.ok).2.status = 200 ∨
      (logoutHandler { isReady := false, qrCodeData := "" } SendOutcome.ok).2.status = 500) ∧
    (logoutHandler { isReady := false, qrCodeData := "" } SendOutcome.ok).2.status ≠ 400 ∧
    logoutHandler { isReady := false, qrCodeData := "" } SendOutcome.ok =
      ({ isReady := false, qrCodeData := "" },
       { status := 200, success := true, message := some "Logged out successfully",
         error := none }) ∧
    (logoutHandler { isReady := false, qrCodeData := "img" }
        (SendOutcome.err "boom")).1 = { isReady := false, qrCodeData := "img" } ∧
    (logoutHandler { isReady := false, qrCodeData := "img" }
        (SendOutcome.err "boom")).2.status = 500 ∧
    (logoutHandler { isReady := false, qrCodeData := "img" }
        (SendOutcome.err "boom")).2.error = some "boom" := by
  have h := logout_ignores_ready_flag { isReady := false, qrCodeData := "" } SendOutcome.ok
  have h2 := logout_ignores_ready_flag { isReady := false, qrCodeData := "img" }
    (SendOutcome.err "boom")
  have h3 := h2.2.2.2 "boom" rfl
  exact ⟨h.1, h.2.1, h.2.2.1 rfl, h3.1, h3.2.1, h3.2.2⟩

/-- Counterexample to C6: an empty recipients array is not rejected — a JS
array is truthy, so `[]` passes validation and /send-bulk answers 200 with
empty results. -/
theorem send_bulk_empty_list_accepted :
    (sendBulkHandler { isReady := true, qrCodeData := "" } (some []) (some "hello")
        (fun _ => SendOutcome.ok)).1.status = 200 ∧
    ¬ (sendBulkHandler { isReady := true, qrCodeData := "" } (some []) (some "hello")
        (fun _ => SendOutcome.ok)).1.status = 400 := by
  decide

/-- Claim C6 amended: with ready=true, a body whose recipients field is
missing / not an array or whose message is missing or empty is answered 400
with no send command; an empty recipients array, however, passes validation
and is answered 200 with empty results, sent = 0, failed = 0 and no send
command issued. -/
theorem send_bulk_validation (st : ConnState) (recips : Option (List String))
    (msg : Option String) (o : Nat → SendOutcome) (hready : st.isReady = true) :
    ((recips = none ∨ optTruthy msg = false) →
      (sendBulkHandler st recips msg o).1.status = 400 ∧
      (sendBulkHandler st recips msg o).2 = []) ∧
    (recips = some [] → ∀ m, msg = some m → m ≠ "" →
      (sendBulkHandler st recips msg o).1.status = 200 ∧
      (sendBulkHandler st recips msg o).1.results = [] ∧
      (sendBulkHandler st recips msg o).1.sent = 0 ∧
      (sendBulkHandler st recips msg o).1.failed = 0 ∧
      (sendBulkHandler st recips msg o).2 = []) := by
  constructor
  · intro hbad
    rcases hbad with hrec | hmsg
    · subst hrec
      simp [sendBulkHandler, hready]
    · simp [sendBulkHandler, hready, hmsg]
  · rintro rfl m rfl hm
    have hmb : (m == "") = false := by simp [hm]
    simp [sendBulkHandler, hready, optTruthy, bne, hmb, bulkLoop]

/-- Witness for the amended C6: a missing recipients field is rejected; an
empty recipients array is accepted with empty aggregates. -/
theorem send_bulk_validation_witness :
    ((sendBulkHandler { isReady := true, qrCodeData := "" } none (some "hello")
        (fun _ => SendOutcome.ok)).1.status = 400 ∧
      (sendBulkHandler { isReady := true, qrCodeData := "" } none (some "hello")
        (fun _ => SendOutcome.ok)).2 = []) ∧
    ((sendBulkHandler { isReady := true, qrCodeData := "" } (some []) (some "hello")
        (fun _ => SendOutcome.ok)).1.status = 200 ∧
      (sendBulkHandler { isReady := true, qrCodeData := "" } (some []) (some "hello")
        (fun _ => SendOutcome.ok)).1.results = [] ∧
      (sendBulkHandler { isReady := true, qrCodeData := "" } (some []) (some "hello")
        (fun _ => SendOutcome.ok)).1.sent = 0 ∧
      (sendBulkHandler { isReady := true, qrCodeData := "" } (some []) (some "hello")
        (fun _ => SendOutcome.ok)).1.failed = 0 ∧
      (sendBulkHandler { isReady := true, qrCodeData := "" } (some []) (some "hello")
        (fun _ => SendOutcome.ok)).2 = []) := by
  have h1 := send_bulk_validation { isReady := true, qrCodeData := "" } none
    (some "hello") (fun _ => SendOutcome.ok) rfl
  have h2 := send_bulk_validation { isReady := true, qrCodeData := "" } (some [])
    (some "hello") (fun _ => SendOutcome.ok) rfl
  exact ⟨h1.1 (Or.inl rfl), h2.2 rfl "hello" rfl (by decide)⟩

/-- Counterexample to C9: when the first of two sends fails, the next send
is attempted immediately — the trace contains two adjacent send commands
with no pause, because the 2-second timeout sits inside the try block after
a successful send only. -/
theorem bulk_no_pause_after_failed_send :
    pausedBetweenSends
      ((bulkLoop "hello"
          (fun i => if i == 0 then SendOutcome.err "boom" else SendOutcome.ok)
          0 ["9876543210", "8876543210"]).2) = false := by
  decide

/-- Claim C9 amended: in the /send-bulk trace, each send attempt is followed
immediately by a 2000 ms pause exactly when that attempt succeeded (also
after the last recipient); a failed attempt is followed by the next send
with no pause. -/
theorem bulk_pause_follows_successful_sends_only (m : String)
    (o : Nat → SendOutcome) :
    ∀ (i : Nat) (rs : List String),
      (bulkLoop m o i rs).2 = (rs.enumFrom i).flatMap (fun p =>
        BulkEvent.sendCmd (normalizePhoneBulk p.2 ++ "@c.us") m ::
          (match o p.1 with
           | SendOutcome.ok => [BulkEvent.delay 2000]
           | SendOutcome.err _ => [])) := by
  intro i rs
  induction rs generalizing i with
  | nil => rfl
  | cons hd tl ih =>
    cases h : o i <;> simp [bulkLoop, List.enumFrom_cons, h, ih]
